import Mathlib

/-!
# Verification of the AICMS annotated-example payload

Shallow embedding of `src/examples/python/examples.py` (the annotated Python
functions) together with the parts of the annotation-verification engine that
the specification describes.  Numeric Python values are modelled as exact
rationals (`ℚ`); Python lists of ints as `List ℤ`; Python strings as `String`
(with character-level operations over `String.toList`).
-/

namespace AICMS

/-! ## Functions embedded from `src/examples/python/examples.py` -/

/-- Embedding of `calculate_compound_interest(principal, rate, years)`:
`return principal * (1 + rate) ** years` (examples.py lines 18–19),
modelled over exact rationals. -/
def calculate_compound_interest (principal rate : ℚ) (years : ℕ) : ℚ :=
  principal * (1 + rate) ^ years

/-- Embedding of `find_max(values)`: `return max(values)` (examples.py lines
33–34).  Python's `max` on an empty list raises, so the embedding returns an
`Option`; `List.max?` computes `foldl max` over a non-empty list exactly as
Python's `max` does. -/
def find_max (values : List ℤ) : Option ℤ :=
  values.max?

/-- Embedding of Python's `s.split(sep)` for a single-character separator:
splits at every occurrence of `sep`, keeping empty parts, so the result list
always has one more element than there are separators (`"".split('@') = [""]`,
`"user@".split('@') = ["user", ""]`). -/
def pySplit (sep : Char) : List Char → List (List Char)
  | [] => [[]]
  | c :: rest =>
    if c = sep then [] :: pySplit sep rest
    else
      match pySplit sep rest with
      | [] => [[c]]
      | part :: rest2 => (c :: part) :: rest2

/-- Embedding of `is_valid_email(email)` (examples.py lines 71–82):
`if not email: return False`; `parts = email.split('@')`;
`if len(parts) != 2: return False`; `local, domain = parts`;
`return bool(local) and bool(domain) and '.' in domain`. -/
def is_valid_email (email : String) : Bool :=
  if email = "" then false
  else
    match pySplit '@' email.toList with
    | [loc, domain] => !loc.isEmpty && !domain.isEmpty && domain.contains '.'
    | _ => false

/-! ## Effect annotations declared in the payload -/

/-- Effect tags appearing in the payload's `@ai:effects` lines. -/
inductive Effect
  | pure
  | io
  | network
  | mutation
  deriving DecidableEq, Repr

/-- The annotation `@ai:effects pure` on `calculate_compound_interest`
(examples.py line 15). -/
def calculate_compound_interest_effects : List Effect := [.pure]

/-- The annotation `@ai:effects pure` on `find_max` (examples.py line 29). -/
def find_max_effects : List Effect := [.pure]

/-- The annotation `@ai:effects network, io` on `post_json`
(examples.py line 41). -/
def post_json_effects : List Effect := [.network, .io]

/-- The annotation `@ai:effects pure` on `is_valid_email`
(examples.py line 67). -/
def is_valid_email_effects : List Effect := [.pure]

/-! ## Engine pieces modelled from the spec
The repository ships only the annotated payload; the extraction/verification
engine itself is specified but absent, so its relevant pieces are modelled
from the specification's words. -/

/-- Modelled from the spec: the default absolute tolerance `atol = 1e-6` for
numeric example comparison (the Expression Evaluator is not in the
repository). -/
def atolDefault : ℚ := 1 / 1000000

/-- Modelled from the spec: the default relative tolerance `rtol = 1e-9` for
numeric example comparison (the Expression Evaluator is not in the
repository). -/
def rtolDefault : ℚ := 1 / 1000000000

/-- Modelled from the spec: numeric equality for examples uses a
relative+absolute tolerance, accepting `actual` against `expected` exactly
when `|actual - expected| <= atol + rtol*|expected|`. -/
def numericAccepts (atol rtol actual expected : ℚ) : Bool :=
  decide (|actual - expected| ≤ atol + rtol * |expected|)

/-- Modelled from the spec: the per-contract verification status values that
the claims mention (`Verified`, `ExampleMismatch(index)`,
`PostconditionViolated(index)`). -/
inductive VerificationStatus
  | Verified
  | ExampleMismatch (index : ℕ)
  | PostconditionViolated (index : ℕ)
  deriving DecidableEq, Repr

/-- Modelled from the spec: checking one example whose expected output is a
boolean — structural equality of actual vs expected; a mismatch yields
`ExampleMismatch(index)`. -/
def checkBoolExample (index : ℕ) (actual expected : Bool) : VerificationStatus :=
  if actual == expected then .Verified else .ExampleMismatch index

/-- Modelled from the spec: the Verifier evaluates every postcondition on
`(inputs, result)`; the first `False` yields `PostconditionViolated(index)`,
and no violation yields `Verified`. -/
def postconditionStatus (posts : List Bool) : VerificationStatus :=
  match posts.findIdx? (· == false) with
  | some i => .PostconditionViolated i
  | none => .Verified

/-- Modelled from the spec: the Annotation Parser is not in the repository;
per the spec, `pure` is mutually exclusive with any other effect tag, and a
contract declaring both is rejected at parse time with a diagnostic. -/
def validateEffects (e : List Effect) : Except String (List Effect) :=
  if e.contains .pure && e.any (· != .pure) then
    .error "effects: pure is mutually exclusive with other effect tags"
  else
    .ok e

/-- The effects-exclusivity invariant from the spec's data model: a declared
effects set either equals `{pure}` or contains no `pure` at all. -/
def effectsExclusive (e : List Effect) : Prop :=
  e = [.pure] ∨ Effect.pure ∉ e

instance (e : List Effect) : Decidable (effectsExclusive e) := by
  unfold effectsExclusive; infer_instance

/-! ## Theorems -/

/-- C1 (counterexample): the declared example
`calculate_compound_interest(1000.0, 0.05, 10) -> 1628.89` does NOT pass the
default numeric tolerance: the actual return `1000 * (1 + 1/20) ^ 10` differs
from `1628.89` by `47378201/10240000000 ≈ 4.63e-3`, which exceeds
`atol + rtol*|1628.89| ≈ 2.63e-6`. -/
theorem cci_rounded_example_outside_default_tolerance :
    ¬ (|calculate_compound_interest 1000 (5 / 100) 10 - 162889 / 100| ≤
        atolDefault + rtolDefault * |(162889 / 100 : ℚ)|) := by
  rw [show |(162889 / 100 : ℚ)| = 162889 / 100 from abs_of_pos (by norm_num),
      show |calculate_compound_interest 1000 (5 / 100) 10 - 162889 / 100| =
          calculate_compound_interest 1000 (5 / 100) 10 - 162889 / 100 from
        abs_of_pos (by norm_num [calculate_compound_interest])]
  norm_num [calculate_compound_interest, atolDefault, rtolDefault]

/-- C1 (amended): verification of the declared example `-> 1628.89` FAILS
under the default tolerance: the actual return value equals
`16679880978201/10240000000 = 1628.8946267774414…`, and the tolerance check
rejects it. -/
theorem cci_rounded_example_rejected :
    calculate_compound_interest 1000 (5 / 100) 10 = 16679880978201 / 10240000000 ∧
    numericAccepts atolDefault rtolDefault
      (calculate_compound_interest 1000 (5 / 100) 10) (162889 / 100) = false := by
  constructor
  · norm_num [calculate_compound_interest]
  · rw [numericAccepts, decide_eq_false_iff_not]
    rw [show |(162889 / 100 : ℚ)| = 162889 / 100 from abs_of_pos (by norm_num),
        show |calculate_compound_interest 1000 (5 / 100) 10 - 162889 / 100| =
            calculate_compound_interest 1000 (5 / 100) 10 - 162889 / 100 from
          abs_of_pos (by norm_num [calculate_compound_interest])]
    norm_num [calculate_compound_interest, atolDefault, rtolDefault]

/-- C2: numeric example verification accepts the actual output exactly when it
lies within `atol + rtol*|expected|` of the expected value; in particular the
declared examples `(1000.0, 0.0, 5) -> 1000.0` and `(500.0, 0.1, 1) -> 550.0`
of `calculate_compound_interest` are accepted, the actual returns being exactly
`1000` and `550`. -/
theorem numericAccepts_iff_within_tolerance :
    (∀ atol rtol actual expected : ℚ,
      numericAccepts atol rtol actual expected = true ↔
        |actual - expected| ≤ atol + rtol * |expected|) ∧
    calculate_compound_interest 1000 0 5 = 1000 ∧
    calculate_compound_interest 500 (1 / 10) 1 = 550 ∧
    numericAccepts atolDefault rtolDefault
      (calculate_compound_interest 1000 0 5) 1000 = true ∧
    numericAccepts atolDefault rtolDefault
      (calculate_compound_interest 500 (1 / 10) 1) 550 = true := by
  refine ⟨fun atol rtol actual expected => by simp [numericAccepts], ?_, ?_, ?_, ?_⟩
  · norm_num [calculate_compound_interest]
  · norm_num [calculate_compound_interest]
  · rw [numericAccepts, decide_eq_true_eq]
    norm_num [calculate_compound_interest, atolDefault, rtolDefault]
  · rw [numericAccepts, decide_eq_true_eq]
    norm_num [calculate_compound_interest, atolDefault, rtolDefault]

/-- C3: `find_max([1, 5, 3, 9, 2])` returns `9`, which satisfies both declared
postconditions — `result in values` and `result >= max(values)` — and the
verification status of the contract on this call is `Verified`. -/
theorem find_max_listed_example_verified :
    find_max [1, 5, 3, 9, 2] = some 9 ∧
    (9 : ℤ) ∈ ([1, 5, 3, 9, 2] : List ℤ) ∧
    ([1, 5, 3, 9, 2] : List ℤ).max? = some 9 ∧
    (9 : ℤ) ≥ 9 ∧
    postconditionStatus
      [([1, 5, 3, 9, 2] : List ℤ).contains 9,
       decide ((9 : ℤ) ≥ (([1, 5, 3, 9, 2] : List ℤ).max?.getD 0))] =
      .Verified := by
  decide

/-- C4: `is_valid_email("@example.com")` returns `False`, matching the
declared example `-> False` (index 2); an example expecting `True` for the
same input yields `ExampleMismatch(2)`. -/
theorem is_valid_email_at_domain_only_example :
    is_valid_email "@example.com" = false ∧
    checkBoolExample 2 (is_valid_email "@example.com") false = .Verified ∧
    checkBoolExample 2 (is_valid_email "@example.com") true = .ExampleMismatch 2 := by
  decide

/-- C5: under the declared precondition `principal > 0.0 and rate >= 0.0 and
years >= 0`, the declared postcondition `result >= principal` holds for
`calculate_compound_interest` under exact arithmetic. -/
theorem calculate_compound_interest_postcondition
    (principal rate : ℚ) (years : ℕ)
    (hp : 0 < principal) (hr : 0 ≤ rate) :
    principal ≤ calculate_compound_interest principal rate years := by
  unfold calculate_compound_interest
  have h1 : (1 : ℚ) ≤ 1 + rate := by linarith
  have h2 : (1 : ℚ) ≤ (1 + rate) ^ years := by
    calc (1 : ℚ) = 1 ^ years := (one_pow years).symm
    _ ≤ (1 + rate) ^ years := pow_le_pow_left₀ (by norm_num) h1 years
  calc principal = principal * 1 := (mul_one principal).symm
  _ ≤ principal * (1 + rate) ^ years := by
      exact mul_le_mul_of_nonneg_left h2 hp.le

/-- Witness for C5 at `(1000, 1/20, 10)`. -/
theorem calculate_compound_interest_postcondition_witness :
    (0 : ℚ) < 1000 ∧ (0 : ℚ) ≤ 1 / 20 ∧
    (1000 : ℚ) ≤ calculate_compound_interest 1000 (1 / 20) 10 :=
  ⟨by norm_num, by norm_num,
    calculate_compound_interest_postcondition 1000 (1 / 20) 10
      (by norm_num) (by norm_num)⟩

/-- C6: for every non-empty list of integers, `find_max` returns an element of
the list that is greater than or equal to every element of the list (so it is
the maximum of the list). -/
theorem find_max_spec (values : List ℤ) (h : values ≠ []) :
    ∃ m, find_max values = some m ∧ m ∈ values ∧ ∀ x ∈ values, x ≤ m := by
  unfold find_max
  cases hm : values.max? with
  | none => exact absurd (List.max?_eq_none_iff.mp hm) h
  | some m =>
    refine ⟨m, rfl, List.max?_mem max_choice hm, ?_⟩
    exact (List.max?_le_iff (fun a b c => max_le_iff) hm).mp le_rfl

/-- Witness for C6 at the single-element edge case `[42]`. -/
theorem find_max_spec_witness :
    ([42] : List ℤ) ≠ [] ∧
    ∃ m, find_max [42] = some m ∧ m ∈ ([42] : List ℤ) ∧
      ∀ x ∈ ([42] : List ℤ), x ≤ m :=
  ⟨by decide, find_max_spec [42] (by decide)⟩

/-- C7: `is_valid_email(email)` returns `True` exactly when `email` is
non-empty, splitting it on `'@'` yields exactly two parts, both parts are
non-empty, and the part after the `'@'` contains a `'.'`; the four listed
evaluations hold. -/
theorem is_valid_email_characterization :
    (∀ email : String,
      is_valid_email email = true ↔
        (email ≠ "" ∧ ∃ loc domain,
          pySplit '@' email.toList = [loc, domain] ∧
          loc ≠ [] ∧ domain ≠ [] ∧ domain.contains '.' = true)) ∧
    is_valid_email "" = false ∧
    is_valid_email "user@" = false ∧
    is_valid_email "invalid-email" = false ∧
    is_valid_email "user@example.com" = true := by
  refine ⟨fun email => ?_, by decide, by decide, by decide, by decide⟩
  by_cases he : email = ""
  · subst he; simp [is_valid_email]
  · rw [is_valid_email, if_neg he]
    cases hsplit : pySplit '@' email.toList with
    | nil => simp [hsplit]
    | cons p rest =>
      cases rest with
      | nil => simp [hsplit]
      | cons q rest2 =>
        cases rest2 with
        | nil =>
          constructor
          · intro hb
            rw [Bool.and_eq_true, Bool.and_eq_true] at hb
            obtain ⟨⟨h1, h2⟩, h3⟩ := hb
            rw [Bool.not_eq_true', List.isEmpty_eq_false] at h1 h2
            exact ⟨he, p, q, rfl, h1, h2, h3⟩
          · rintro ⟨-, l, d, hld, hl, hd, hc⟩
            injection hld with e1 e2r
            injection e2r with e2 _
            subst e1; subst e2
            rw [Bool.and_eq_true, Bool.and_eq_true]
            refine ⟨⟨?_, ?_⟩, hc⟩
            · rw [Bool.not_eq_true', List.isEmpty_eq_false]; exact hl
            · rw [Bool.not_eq_true', List.isEmpty_eq_false]; exact hd
        | cons r rest3 => simp [hsplit]

/-- C8: every contract in the example payload satisfies the
effects-exclusivity invariant (its effects list equals `[pure]` or contains no
`pure`), and any effects list declaring both `pure` and another effect is
rejected by the parse-time validation with a diagnostic, never accepted. -/
theorem effects_exclusivity :
    effectsExclusive calculate_compound_interest_effects ∧
    effectsExclusive find_max_effects ∧
    effectsExclusive post_json_effects ∧
    effectsExclusive is_valid_email_effects ∧
    validateEffects calculate_compound_interest_effects = .ok [.pure] ∧
    validateEffects find_max_effects = .ok [.pure] ∧
    validateEffects post_json_effects = .ok [.network, .io] ∧
    validateEffects is_valid_email_effects = .ok [.pure] ∧
    (∀ e : List Effect, Effect.pure ∈ e → (∃ x ∈ e, x ≠ .pure) →
      validateEffects e =
        .error "effects: pure is mutually exclusive with other effect tags") := by
  refine ⟨by decide, by decide, by decide, by decide,
    rfl, rfl, rfl, rfl, ?_⟩
  rintro e hp ⟨x, hx, hxne⟩
  rw [validateEffects, if_pos]
  rw [Bool.and_eq_true]
  constructor
  · exact List.elem_eq_true_of_mem hp
  · rw [List.any_eq_true]
    exact ⟨x, hx, by simpa using hxne⟩

/-- Witness for C8's universal part at the malformed list `[pure, io]`. -/
theorem effects_exclusivity_witness :
    validateEffects [Effect.pure, Effect.io] =
      .error "effects: pure is mutually exclusive with other effect tags" :=
  effects_exclusivity.2.2.2.2.2.2.2.2 [Effect.pure, Effect.io]
    (by decide) ⟨Effect.io, by decide, by decide⟩

end AICMS
